import Mathlib

/-!
Verification of the statistical core of the redistricting ecological-inference
repository (`src/inference.py`): the model builder `ecological_inference_model`
and the sampling wrapper `run_ecological_inference`.

Numeric modelling: numpy float arrays are embedded as lists of `NpFloat`, an
exact-rational value extended with a single `nonfinite` element that stands for
any IEEE non-finite result (NaN or an infinity).  The only operation in this
code that can produce a non-finite value from finite data is division by zero;
addition, subtraction and multiplication of the (small, percentage- and
count-sized) finite values occurring here stay finite, so the exact-rational
abstraction is faithful for the properties considered.  Integer-valued columns
(vote counts, populations) are embedded as `Int`.
-/

/-- A numpy floating-point value: either a finite number (modelled exactly as a
rational) or a non-finite value (NaN or an infinity, conflated). -/
inductive NpFloat where
  | fin : ℚ → NpFloat
  | nonfinite : NpFloat
deriving DecidableEq

namespace NpFloat

/-- Addition; any non-finite operand makes the result non-finite. -/
def add : NpFloat → NpFloat → NpFloat
  | fin a, fin b => fin (a + b)
  | _, _ => nonfinite

/-- Subtraction; any non-finite operand makes the result non-finite. -/
def sub : NpFloat → NpFloat → NpFloat
  | fin a, fin b => fin (a - b)
  | _, _ => nonfinite

/-- Multiplication; any non-finite operand makes the result non-finite
(IEEE: `0 * inf` and `0 * NaN` are both NaN, so this is exact for the
conflated non-finite value). -/
def mul : NpFloat → NpFloat → NpFloat
  | fin a, fin b => fin (a * b)
  | _, _ => nonfinite

/-- Division, as numpy performs it on float arrays: a zero divisor yields a
non-finite value (inf, -inf or NaN depending on the numerator) instead of
raising an error. -/
def div : NpFloat → NpFloat → NpFloat
  | fin a, fin b => if b = 0 then nonfinite else fin (a / b)
  | _, _ => nonfinite

/-- Whether the value is a finite number. -/
def isFinite : NpFloat → Bool
  | fin _ => true
  | nonfinite => false

instance : Add NpFloat := ⟨add⟩
instance : Sub NpFloat := ⟨sub⟩
instance : Mul NpFloat := ⟨mul⟩
instance : One NpFloat := ⟨fin 1⟩
instance : Zero NpFloat := ⟨fin 0⟩

end NpFloat

/-- A distribution (or deterministic/observed) specification attached to a
named PyMC3 variable, restricted to the constructors this model uses.
References to other variables are by name (and component index for the
shape-2 hyperprior vectors), mirroring how the Python code wires
`alpha[0]`, `beta[1]`, etc. into the Beta declarations. -/
inductive DistSpec where
  /-- Embeds `pm.Exponential(name, lam=lam, shape=shape)`. -/
  | exponential (lam : NpFloat) (shape : Nat)
  /-- Embeds `pm.Beta(name, alpha=<var>[i], beta=<var>[j], shape=shape)`;
  the two references name a variable and a component index. -/
  | betaDist (alphaRef : String × Nat) (betaRef : String × Nat) (shape : Nat)
  /-- Embeds `pm.Deterministic(name, pct_minority * <minRate> + (1 - pct_minority) * <majRate>)`:
  the data vector is stored, the two latent rate vectors are referenced by name. -/
  | deterministicEst (pct_minority : List NpFloat) (minRateName : String) (majRateName : String)
  /-- Embeds `pm.Binomial(name, n=n, p=<pRef>, shape=shape, observed=observed)`. -/
  | binomialObs (n : List ℤ) (pRef : String) (shape : Nat) (observed : List ℤ)
deriving DecidableEq

namespace DistSpec

/-- Whether this specification is a `pm.Deterministic` node. -/
def isDet : DistSpec → Bool
  | deterministicEst _ _ _ => true
  | _ => false

end DistSpec

/-- A named random variable declared inside the model context. -/
structure RV where
  name : String
  dist : DistSpec
deriving DecidableEq

/-- A PyMC3 model: the ordered list of variables declared in its context. -/
structure Model where
  vars : List RV
deriving DecidableEq

/-- The names of all quantities declared in the model. -/
def Model.varNames (m : Model) : List String := m.vars.map RV.name

/-- The first (here: only) `pm.Deterministic` variable of the model. -/
def Model.firstDet (m : Model) : Option RV :=
  m.vars.find? fun rv => rv.dist.isDet

/-- Elementwise `pct_minority * minRate + (1 - pct_minority) * majRate`, the
numpy expression on line 51-52 of `inference.py` (equal-length arrays,
elementwise arithmetic). -/
def estExpr : List NpFloat → List NpFloat → List NpFloat → List NpFloat
  | m :: ms, a :: ra, b :: rb => (m * a + (1 - m) * b) :: estExpr ms ra rb
  | _, _, _ => []

/-- Evaluate a `pm.Deterministic` node given an environment assigning a drawn
vector of values to each latent variable name. -/
def DistSpec.evalDet : DistSpec → (String → List NpFloat) → Option (List NpFloat)
  | .deterministicEst pm mn jn, env => some (estExpr pm (env mn) (env jn))
  | _, _ => none

/-- The error message raised on a length mismatch (the `TypeError` of
`inference.py` lines 34-35). -/
def lengthMismatchMsg : String :=
  "Each of num_votes_for_group, voting_population, and pct_minority must" ++
  "be an iterable of the same length (which is the number of precincts)"

/-- Embeds `ecological_inference_model` (`inference.py` lines 4-60).  Validates that
the three data arrays share the length of `voting_population`
(`n_precincts`), raising a `TypeError` otherwise, then declares, in order:
shape-2 Exponential hyperpriors `alpha` and `beta`, two length-`n_precincts`
Beta latent-rate vectors wired to `alpha[0], beta[0]` (minority) and
`alpha[1], beta[1]` (majority), the deterministic convex combination, and the
observed Binomial likelihood.  Python defaults: `lam=0.5`, `group_name="dem"`. -/
def ecological_inference_model (num_votes_for_group : List ℤ) (voting_population : List ℤ)
    (pct_minority : List NpFloat) (lam : NpFloat) (group_name : String) :
    Except String Model :=
  let n_precincts := voting_population.length
  if !([num_votes_for_group.length, voting_population.length,
        pct_minority.length].all fun l => l == n_precincts) then
    Except.error lengthMismatchMsg
  else
    Except.ok
      { vars := [
          ⟨"alpha", DistSpec.exponential lam 2⟩,
          ⟨"beta", DistSpec.exponential lam 2⟩,
          ⟨"pct_minority_voting_" ++ group_name,
            DistSpec.betaDist ("alpha", 0) ("beta", 0) n_precincts⟩,
          ⟨"pct_majority_voting_" ++ group_name,
            DistSpec.betaDist ("alpha", 1) ("beta", 1) n_precincts⟩,
          ⟨"est_voting_" ++ group_name,
            DistSpec.deterministicEst pct_minority
              ("pct_minority_voting_" ++ group_name)
              ("pct_majority_voting_" ++ group_name)⟩,
          ⟨"votes_for_" ++ group_name,
            DistSpec.binomialObs voting_population ("est_voting_" ++ group_name)
              n_precincts num_votes_for_group⟩ ] }

/-- One row of the precinct-level table consumed by
`run_ecological_inference`: the census columns `Total` and `White Alone` and
the election columns `DEM` and `REP` (all integer counts). -/
structure DistrictRow where
  total : ℤ
  whiteAlone : ℤ
  dem : ℤ
  rep : ℤ
deriving DecidableEq

/-- Embeds the derivation of the minority fraction, column expression
Total minus White Alone, divided by Total (`inference.py` line 81):
integer subtraction followed by numpy float
division, which yields a non-finite value where `Total` is zero. -/
def derive_pct_minority (district_df : List DistrictRow) : List NpFloat :=
  district_df.map fun r =>
    NpFloat.div (NpFloat.fin ((r.total - r.whiteAlone : ℤ) : ℚ)) (NpFloat.fin (r.total : ℚ))

/-- Embeds `run_ecological_inference` (`inference.py` lines 63-88).  Derives the
model inputs from the table, builds the model with the Python defaults
(`lam=0.5`, `group_name="dem"`), and invokes the MCMC engine — abstracted as
the injected `sampler`, receiving the model, the draw count `5000`, the
`target_accept` value `0.98`, and the keyword options of the caller verbatim —
returning whatever the engine returns.  Any error from model construction or
from the engine propagates unchanged. -/
def run_ecological_inference {Trace : Type}
    (sampler : Model → Nat → NpFloat → List (String × String) → Except String Trace)
    (district_df : List DistrictRow) (sample_kwargs : List (String × String)) :
    Except String Trace :=
  let pct_minority := derive_pct_minority district_df
  let voting_population := district_df.map fun r => r.dem + r.rep
  let num_voting_for_dems := district_df.map fun r => r.dem
  (ecological_inference_model num_voting_for_dems voting_population pct_minority
      (NpFloat.fin (1/2)) "dem").bind
    fun model => sampler model 5000 (NpFloat.fin (98/100)) sample_kwargs

/-- Evaluate the deterministic node of the model at precinct `i` under an
assignment `env` of drawn vectors to latent-variable names. -/
def Model.detEstAt (m : Model) (env : String → List NpFloat) (i : Nat) : Option NpFloat :=
  m.firstDet.bind fun rv => (rv.dist.evalDet env).bind fun L => L.get? i

/-- The declared variable names of a successfully built model (empty on a
construction error). -/
def namesOf : Except String Model → List String
  | Except.ok m => m.varNames
  | Except.error _ => []

/-- A one-precinct example row: Total 100, White Alone 30, DEM 50, REP 50. -/
def exampleRow : DistrictRow := ⟨100, 30, 50, 50⟩

/-- A row whose `Total` column is zero (the division-by-zero case). -/
def zeroTotalRow : DistrictRow := ⟨0, 0, 3, 4⟩

/-- A sampler stub returning its requested draw count as the trace. -/
def countSampler : Model → Nat → NpFloat → List (String × String) → Except String Nat :=
  fun _ draws _ _ => Except.ok draws

/-- A sampler stub that always fails. -/
def failSampler : Model → Nat → NpFloat → List (String × String) → Except String Nat :=
  fun _ _ _ _ => Except.error ("sampling failure")

/-- A two-precinct latent assignment: both minority rates `1/4`, both
majority rates `1/3`. -/
def envTwo : String → List NpFloat := fun n =>
  if n = "pct_minority_voting_dem" then [NpFloat.fin (1/4), NpFloat.fin (1/4)]
  else [NpFloat.fin (1/3), NpFloat.fin (1/3)]

/-- The model built from two precincts with minority fractions `0` and `1`. -/
def demoModelTwo : Model := ⟨[
  ⟨"alpha", DistSpec.exponential (NpFloat.fin (1/2)) 2⟩,
  ⟨"beta", DistSpec.exponential (NpFloat.fin (1/2)) 2⟩,
  ⟨"pct_minority_voting_dem", DistSpec.betaDist ("alpha", 0) ("beta", 0) 2⟩,
  ⟨"pct_majority_voting_dem", DistSpec.betaDist ("alpha", 1) ("beta", 1) 2⟩,
  ⟨"est_voting_dem", DistSpec.deterministicEst [NpFloat.fin 0, NpFloat.fin 1]
    "pct_minority_voting_dem" "pct_majority_voting_dem"⟩,
  ⟨"votes_for_dem", DistSpec.binomialObs [100, 100] "est_voting_dem" 2 [50, 60]⟩ ]⟩

/-- The model `run_ecological_inference` builds from the table `[exampleRow]`. -/
def exampleModel : Model := ⟨[
  ⟨"alpha", DistSpec.exponential (NpFloat.fin (1/2)) 2⟩,
  ⟨"beta", DistSpec.exponential (NpFloat.fin (1/2)) 2⟩,
  ⟨"pct_minority_voting_dem", DistSpec.betaDist ("alpha", 0) ("beta", 0) 1⟩,
  ⟨"pct_majority_voting_dem", DistSpec.betaDist ("alpha", 1) ("beta", 1) 1⟩,
  ⟨"est_voting_dem", DistSpec.deterministicEst (derive_pct_minority [exampleRow])
    "pct_minority_voting_dem" "pct_majority_voting_dem"⟩,
  ⟨"votes_for_dem", DistSpec.binomialObs [100] "est_voting_dem" 1 [50]⟩ ]⟩

/-- Inversion: a successful build yields exactly the six declared variables,
in declaration order, with `n_precincts = voting_population.length`. -/
theorem model_ok_inv {nv vp : List ℤ} {pm : List NpFloat} {lam : NpFloat}
    {g : String} {m : Model}
    (hm : ecological_inference_model nv vp pm lam g = Except.ok m) :
    m = ⟨[
      ⟨"alpha", DistSpec.exponential lam 2⟩,
      ⟨"beta", DistSpec.exponential lam 2⟩,
      ⟨"pct_minority_voting_" ++ g, DistSpec.betaDist ("alpha", 0) ("beta", 0) vp.length⟩,
      ⟨"pct_majority_voting_" ++ g, DistSpec.betaDist ("alpha", 1) ("beta", 1) vp.length⟩,
      ⟨"est_voting_" ++ g,
        DistSpec.deterministicEst pm ("pct_minority_voting_" ++ g)
          ("pct_majority_voting_" ++ g)⟩,
      ⟨"votes_for_" ++ g,
        DistSpec.binomialObs vp ("est_voting_" ++ g) vp.length nv⟩ ]⟩ := by
  unfold ecological_inference_model at hm
  simp only [] at hm
  split at hm
  · simp at hm
  · exact (Except.ok.inj hm).symm

/-- The `i`-th element of the elementwise estimate expression. -/
theorem estExpr_get? :
    ∀ (ms ra rb : List NpFloat) (i : Nat) (mf a b : NpFloat),
      ms.get? i = some mf → ra.get? i = some a → rb.get? i = some b →
      (estExpr ms ra rb).get? i = some (mf * a + (1 - mf) * b) := by
  intro ms
  induction ms with
  | nil => intro ra rb i mf a b hmf _ _; simp at hmf
  | cons m0 ms ih =>
    intro ra rb i mf a b hmf ha hb
    cases ra with
    | nil => simp at ha
    | cons a0 ra =>
      cases rb with
      | nil => simp at hb
      | cons b0 rb =>
        cases i with
        | zero =>
          simp only [List.get?_cons_zero, Option.some.injEq] at hmf ha hb
          subst hmf; subst ha; subst hb
          rfl
        | succ n =>
          simp only [List.get?_cons_succ] at hmf ha hb
          simpa [estExpr] using ih ra rb n mf a b hmf ha hb

/-- Appending a common prefix string is injective in the suffix. -/
theorem string_append_right_inj {s t u : String} (h : s ++ t = s ++ u) : t = u := by
  have h2 := congrArg String.data h
  simp only [String.data_append, List.append_cancel_left_eq] at h2
  exact String.ext h2

/-- Claim C1: `ecological_inference_model` raises the length-mismatch
`TypeError` exactly when the three input arrays do not all share the length
of `voting_population` (equivalently: when the three lengths are not all
equal); with all lengths equal no error is raised. -/
theorem length_validation (nv vp : List ℤ) (pm : List NpFloat) (lam : NpFloat) (g : String) :
    (ecological_inference_model nv vp pm lam g = Except.error lengthMismatchMsg)
      ↔ ¬(nv.length = vp.length ∧ pm.length = vp.length) := by
  unfold ecological_inference_model
  simp only [List.all_cons, List.all_nil, Bool.and_true, Bool.not_and, beq_self_eq_true,
    Bool.true_and]
  constructor
  · intro h
    by_contra hc
    simp [hc.1, hc.2] at h
  · intro h
    rcases Decidable.em (nv.length = vp.length) with h1 | h1
    · rcases Decidable.em (pm.length = vp.length) with h2 | h2
      · exact absurd ⟨h1, h2⟩ h
      · simp [h1, h2]
    · simp [h1]

/-- Claim C3: with equal-length inputs, the built model has exactly the
three-level structure: shape-2 Exponential(lam) hyperpriors `alpha` and
`beta` (minority family uses component 0, majority component 1), two
length-`n_precincts` Beta latent-rate vectors wired to the shared per-group
(alpha, beta) components, and an observed Binomial likelihood with
`n = voting_population` and `p` referencing the deterministic estimate,
conditioned on `num_votes_for_group`. -/
theorem model_three_level_structure (nv vp : List ℤ) (pm : List NpFloat)
    (lam : NpFloat) (g : String)
    (h1 : nv.length = vp.length) (h2 : pm.length = vp.length) :
    ecological_inference_model nv vp pm lam g = Except.ok ⟨[
      ⟨"alpha", DistSpec.exponential lam 2⟩,
      ⟨"beta", DistSpec.exponential lam 2⟩,
      ⟨"pct_minority_voting_" ++ g, DistSpec.betaDist ("alpha", 0) ("beta", 0) vp.length⟩,
      ⟨"pct_majority_voting_" ++ g, DistSpec.betaDist ("alpha", 1) ("beta", 1) vp.length⟩,
      ⟨"est_voting_" ++ g,
        DistSpec.deterministicEst pm ("pct_minority_voting_" ++ g)
          ("pct_majority_voting_" ++ g)⟩,
      ⟨"votes_for_" ++ g,
        DistSpec.binomialObs vp ("est_voting_" ++ g) vp.length nv⟩ ]⟩ := by
  unfold ecological_inference_model
  simp [h1, h2]

/-- Witness for C3 at `nv = [50]`, `vp = [100]`, `pm = [0.3]`. -/
theorem model_three_level_structure_witness :
    ecological_inference_model [50] [100] [NpFloat.fin (3/10)]
        (NpFloat.fin (1/2)) "dem" = Except.ok ⟨[
      ⟨"alpha", DistSpec.exponential (NpFloat.fin (1/2)) 2⟩,
      ⟨"beta", DistSpec.exponential (NpFloat.fin (1/2)) 2⟩,
      ⟨"pct_minority_voting_dem", DistSpec.betaDist ("alpha", 0) ("beta", 0) 1⟩,
      ⟨"pct_majority_voting_dem", DistSpec.betaDist ("alpha", 1) ("beta", 1) 1⟩,
      ⟨"est_voting_dem",
        DistSpec.deterministicEst [NpFloat.fin (3/10)] "pct_minority_voting_dem"
          "pct_majority_voting_dem"⟩,
      ⟨"votes_for_dem", DistSpec.binomialObs [100] "est_voting_dem" 1 [50]⟩ ]⟩ :=
  model_three_level_structure [50] [100] [NpFloat.fin (3/10)] (NpFloat.fin (1/2)) "dem"
    rfl rfl

/-- Claim C2: in any successfully built model, the (unique) deterministic node
is named `est_voting_<group>`, and for every precinct index `i` and every
assignment of latent rate vectors, its value at `i` is exactly
`minority_fraction[i] * pct_minority_voting_group[i]
  + (1 - minority_fraction[i]) * pct_majority_voting_group[i]`. -/
theorem deterministic_est_value (nv vp : List ℤ) (pm : List NpFloat) (lam : NpFloat)
    (g : String) (m : Model)
    (hm : ecological_inference_model nv vp pm lam g = Except.ok m)
    (env : String → List NpFloat) (i : Nat) (mf a b : NpFloat)
    (hmf : pm.get? i = some mf)
    (ha : (env ("pct_minority_voting_" ++ g)).get? i = some a)
    (hb : (env ("pct_majority_voting_" ++ g)).get? i = some b) :
    m.firstDet.map RV.name = some ("est_voting_" ++ g) ∧
    m.detEstAt env i = some (mf * a + (1 - mf) * b) := by
  have hminv := model_ok_inv hm
  subst hminv
  refine ⟨rfl, ?_⟩
  show (estExpr pm (env ("pct_minority_voting_" ++ g))
      (env ("pct_majority_voting_" ++ g))).get? i = some (mf * a + (1 - mf) * b)
  exact estExpr_get? pm _ _ i mf a b hmf ha hb

/-- Witness for C2: one precinct, `minority_fraction = [1/2]`, both latent
rates `1/4`. -/
theorem deterministic_est_value_witness :
    (⟨[
      ⟨"alpha", DistSpec.exponential (NpFloat.fin (1/2)) 2⟩,
      ⟨"beta", DistSpec.exponential (NpFloat.fin (1/2)) 2⟩,
      ⟨"pct_minority_voting_dem", DistSpec.betaDist ("alpha", 0) ("beta", 0) 1⟩,
      ⟨"pct_majority_voting_dem", DistSpec.betaDist ("alpha", 1) ("beta", 1) 1⟩,
      ⟨"est_voting_dem",
        DistSpec.deterministicEst [NpFloat.fin (1/2)] "pct_minority_voting_dem"
          "pct_majority_voting_dem"⟩,
      ⟨"votes_for_dem", DistSpec.binomialObs [100] "est_voting_dem" 1 [50]⟩ ]⟩ :
      Model).detEstAt (fun _ => [NpFloat.fin (1/4)]) 0 =
      some (NpFloat.fin (1/2) * NpFloat.fin (1/4) +
        (1 - NpFloat.fin (1/2)) * NpFloat.fin (1/4)) :=
  (deterministic_est_value [50] [100] [NpFloat.fin (1/2)] (NpFloat.fin (1/2)) "dem"
    _ rfl (fun _ => [NpFloat.fin (1/4)]) 0 (NpFloat.fin (1/2)) (NpFloat.fin (1/4))
    (NpFloat.fin (1/4)) rfl rfl rfl).2

/-- Claim C7: in any successfully built model, at a precinct whose minority
fraction is exactly `0.0` the deterministic estimate equals the majority
latent rate exactly, and at a precinct whose minority fraction is exactly
`1.0` it equals the minority latent rate exactly, for all finite latent
rate values. -/
theorem degenerate_minority_fraction (nv vp : List ℤ) (pm : List NpFloat)
    (lam : NpFloat) (g : String) (m : Model)
    (hm : ecological_inference_model nv vp pm lam g = Except.ok m)
    (env : String → List NpFloat) (i : Nat) (qa qb : ℚ)
    (ha : (env ("pct_minority_voting_" ++ g)).get? i = some (NpFloat.fin qa))
    (hb : (env ("pct_majority_voting_" ++ g)).get? i = some (NpFloat.fin qb)) :
    (pm.get? i = some (NpFloat.fin 0) → m.detEstAt env i = some (NpFloat.fin qb)) ∧
    (pm.get? i = some (NpFloat.fin 1) → m.detEstAt env i = some (NpFloat.fin qa)) := by
  have hminv := model_ok_inv hm
  subst hminv
  constructor
  · intro h0
    show (estExpr pm (env ("pct_minority_voting_" ++ g))
        (env ("pct_majority_voting_" ++ g))).get? i = some (NpFloat.fin qb)
    rw [estExpr_get? pm _ _ i _ _ _ h0 ha hb]
    have hv : NpFloat.fin 0 * NpFloat.fin qa + (1 - NpFloat.fin 0) * NpFloat.fin qb
        = NpFloat.fin qb := by
      show NpFloat.fin (0 * qa + (1 - 0) * qb) = NpFloat.fin qb
      norm_num
    rw [hv]
  · intro h1
    show (estExpr pm (env ("pct_minority_voting_" ++ g))
        (env ("pct_majority_voting_" ++ g))).get? i = some (NpFloat.fin qa)
    rw [estExpr_get? pm _ _ i _ _ _ h1 ha hb]
    have hv : NpFloat.fin 1 * NpFloat.fin qa + (1 - NpFloat.fin 1) * NpFloat.fin qb
        = NpFloat.fin qa := by
      show NpFloat.fin (1 * qa + (1 - 1) * qb) = NpFloat.fin qa
      norm_num
    rw [hv]

/-- Witness for C7: two precincts with minority fractions `[0, 1]`; the
estimate is the majority rate `1/3` at precinct 0 and the minority rate
`1/4` at precinct 1. -/
theorem degenerate_minority_fraction_witness :
    demoModelTwo.detEstAt envTwo 0 = some (NpFloat.fin (1/3)) ∧
    demoModelTwo.detEstAt envTwo 1 = some (NpFloat.fin (1/4)) :=
  ⟨(degenerate_minority_fraction [50, 60] [100, 100] [NpFloat.fin 0, NpFloat.fin 1]
      (NpFloat.fin (1/2)) "dem" demoModelTwo rfl envTwo 0 (1/4) (1/3)
      rfl rfl).1 rfl,
   (degenerate_minority_fraction [50, 60] [100, 100] [NpFloat.fin 0, NpFloat.fin 1]
      (NpFloat.fin (1/2)) "dem" demoModelTwo rfl envTwo 1 (1/4) (1/3)
      rfl rfl).2 rfl⟩

/-- Claim C4: the wrapper derives, per row, the minority fraction as
Total minus White Alone divided by Total, the voting population as the sum
of the DEM and REP columns, and the votes for the target group as the DEM
column, then builds the model with the default hyperparameters
(`lam = 0.5`, `group_name = "dem"`) and hands it to the sampling engine. -/
theorem wrapper_derivation {Trace : Type}
    (sampler : Model → Nat → NpFloat → List (String × String) → Except String Trace)
    (district_df : List DistrictRow) (sample_kwargs : List (String × String)) :
    run_ecological_inference sampler district_df sample_kwargs =
      (ecological_inference_model (district_df.map fun r => r.dem)
        (district_df.map fun r => r.dem + r.rep)
        (district_df.map fun r =>
          NpFloat.div (NpFloat.fin ((r.total - r.whiteAlone : ℤ) : ℚ))
            (NpFloat.fin (r.total : ℚ)))
        (NpFloat.fin (1/2)) "dem").bind
        fun m => sampler m 5000 (NpFloat.fin (98/100)) sample_kwargs := rfl

/-- Claim C6: whenever model construction succeeds, the wrapper invokes the
sampling engine with exactly 5000 draws and target acceptance probability
`0.98`, forwards the keyword options verbatim, and returns exactly what the
engine returns. -/
theorem wrapper_sampling_call {Trace : Type}
    (sampler : Model → Nat → NpFloat → List (String × String) → Except String Trace)
    (district_df : List DistrictRow) (sample_kwargs : List (String × String))
    (m : Model)
    (hm : ecological_inference_model (district_df.map fun r => r.dem)
      (district_df.map fun r => r.dem + r.rep) (derive_pct_minority district_df)
      (NpFloat.fin (1/2)) "dem" = Except.ok m) :
    run_ecological_inference sampler district_df sample_kwargs =
      sampler m 5000 (NpFloat.fin (98/100)) sample_kwargs := by
  unfold run_ecological_inference
  simp only []
  rw [hm]
  rfl

/-- Witness for C6: on the one-row example table, a sampler that reports its
requested draw count yields the trace `5000`. -/
theorem wrapper_sampling_call_witness :
    run_ecological_inference countSampler [exampleRow] [] = Except.ok 5000 :=
  wrapper_sampling_call countSampler [exampleRow] [] exampleModel rfl

/-- Claim C8: the model builder performs no check of the domain invariant
relating votes to population: every equal-length triple, including triples
with more votes than voters in some precinct, builds successfully. -/
theorem no_domain_check (nv vp : List ℤ) (pm : List NpFloat) (lam : NpFloat)
    (g : String) (h1 : nv.length = vp.length) (h2 : pm.length = vp.length) :
    (ecological_inference_model nv vp pm lam g).isOk = true := by
  unfold ecological_inference_model
  simp [h1, h2, Except.isOk, Except.toBool]

/-- Witness for C8: a precinct with 150 recorded votes for the group out of
a voting population of 100 still builds without a validation error. -/
theorem no_domain_check_witness :
    ((150 : ℤ) > 100) ∧
    (ecological_inference_model [150] [100] [NpFloat.fin (1/2)]
      (NpFloat.fin (1/2)) "dem").isOk = true :=
  ⟨by decide,
   no_domain_check [150] [100] [NpFloat.fin (1/2)] (NpFloat.fin (1/2)) "dem" rfl rfl⟩

/-- Claim C9: the wrapper neither catches nor retries anything: its result is
one bind of model construction into a single sampler invocation, a
construction error reaches the caller unchanged, and a sampler error reaches
the caller unchanged. -/
theorem error_propagation {Trace : Type}
    (sampler : Model → Nat → NpFloat → List (String × String) → Except String Trace)
    (district_df : List DistrictRow) (sample_kwargs : List (String × String)) :
    (run_ecological_inference sampler district_df sample_kwargs =
      (ecological_inference_model (district_df.map fun r => r.dem)
        (district_df.map fun r => r.dem + r.rep) (derive_pct_minority district_df)
        (NpFloat.fin (1/2)) "dem").bind
        fun m => sampler m 5000 (NpFloat.fin (98/100)) sample_kwargs) ∧
    (∀ e, ecological_inference_model (district_df.map fun r => r.dem)
        (district_df.map fun r => r.dem + r.rep) (derive_pct_minority district_df)
        (NpFloat.fin (1/2)) "dem" = Except.error e →
      run_ecological_inference sampler district_df sample_kwargs = Except.error e) ∧
    (∀ m e, ecological_inference_model (district_df.map fun r => r.dem)
        (district_df.map fun r => r.dem + r.rep) (derive_pct_minority district_df)
        (NpFloat.fin (1/2)) "dem" = Except.ok m →
      sampler m 5000 (NpFloat.fin (98/100)) sample_kwargs = Except.error e →
      run_ecological_inference sampler district_df sample_kwargs = Except.error e) := by
  refine ⟨rfl, ?_, ?_⟩
  · intro e he
    unfold run_ecological_inference
    simp only []
    rw [he]
    rfl
  · intro m e hm hs
    unfold run_ecological_inference
    simp only []
    rw [hm]
    exact hs

/-- Witness for C9: the failure of a failing sampler on the one-row example
table reaches the caller verbatim. -/
theorem error_propagation_witness :
    run_ecological_inference failSampler [exampleRow] [] =
      Except.error ("sampling failure") :=
  (error_propagation failSampler [exampleRow] []).2.2 exampleModel
    ("sampling failure") rfl rfl

/-- Claim C10: the wrapper divides by the Total column with no guard.  At any
row whose Total is nonzero the derived minority fraction is the finite
number (Total - White Alone) / Total; at a row whose Total is zero it is
non-finite; and in either case model construction raises no validation
error (the three derived arrays always have equal length). -/
theorem total_division_guard (district_df : List DistrictRow) (i : Nat)
    (r : DistrictRow) (hr : district_df.get? i = some r) :
    (r.total ≠ 0 → (derive_pct_minority district_df).get? i =
        some (NpFloat.fin (((r.total - r.whiteAlone : ℤ) : ℚ) / ((r.total : ℤ) : ℚ)))) ∧
    (r.total = 0 → (derive_pct_minority district_df).get? i = some NpFloat.nonfinite) ∧
    (ecological_inference_model (district_df.map fun x => x.dem)
      (district_df.map fun x => x.dem + x.rep) (derive_pct_minority district_df)
      (NpFloat.fin (1/2)) "dem").isOk = true := by
  have hget : (derive_pct_minority district_df).get? i =
      some (NpFloat.div (NpFloat.fin ((r.total - r.whiteAlone : ℤ) : ℚ))
        (NpFloat.fin ((r.total : ℤ) : ℚ))) := by
    unfold derive_pct_minority
    rw [List.get?_map, hr]
    rfl
  refine ⟨?_, ?_, ?_⟩
  · intro h0
    rw [hget]
    have hq : ((r.total : ℤ) : ℚ) ≠ 0 := Int.cast_ne_zero.mpr h0
    simp [NpFloat.div, hq]
  · intro h0
    rw [hget, h0]
    simp [NpFloat.div]
  · unfold ecological_inference_model
    simp [derive_pct_minority, Except.isOk, Except.toBool]

/-- Witness for C10: a table whose single row has Total `0` yields a
non-finite minority fraction, and the model still builds without a
validation error. -/
theorem total_division_guard_witness :
    (derive_pct_minority [zeroTotalRow]).get? 0 = some NpFloat.nonfinite ∧
    (ecological_inference_model ([zeroTotalRow].map fun x => x.dem)
      ([zeroTotalRow].map fun x => x.dem + x.rep) (derive_pct_minority [zeroTotalRow])
      (NpFloat.fin (1/2)) "dem").isOk = true :=
  ⟨(total_division_guard [zeroTotalRow] 0 zeroTotalRow rfl).2.1 rfl,
   (total_division_guard [zeroTotalRow] 0 zeroTotalRow rfl).2.2⟩

/-- Counterexample to C5: two models built from the same data with the
distinct group names "dem" and "rep" nevertheless share the quantity
identifiers "alpha" and "beta", because the hyperpriors are declared without
the group-name suffix. -/
theorem group_name_collision :
    "alpha" ∈ namesOf (ecological_inference_model [50] [100] [NpFloat.fin (3/10)]
      (NpFloat.fin (1/2)) "dem") ∧
    "alpha" ∈ namesOf (ecological_inference_model [50] [100] [NpFloat.fin (3/10)]
      (NpFloat.fin (1/2)) "rep") ∧
    "beta" ∈ namesOf (ecological_inference_model [50] [100] [NpFloat.fin (3/10)]
      (NpFloat.fin (1/2)) "dem") ∧
    "beta" ∈ namesOf (ecological_inference_model [50] [100] [NpFloat.fin (3/10)]
      (NpFloat.fin (1/2)) "rep") :=
  ⟨List.Mem.head _, List.Mem.head _,
   List.Mem.tail _ (List.Mem.head _), List.Mem.tail _ (List.Mem.head _)⟩

/-- Amended C5: the latent-rate vectors, the deterministic estimate and the
observed-likelihood node carry the group name as a suffix, so those four
identifiers differ between models built with distinct group names; the
hyperpriors, however, are named plain "alpha" and "beta" in every model, so
two such models do share those two identifiers. -/
theorem group_name_partial_namespacing (nv vp : List ℤ) (pm : List NpFloat)
    (lam : NpFloat) (g h : String)
    (h1 : nv.length = vp.length) (h2 : pm.length = vp.length) (hg : g ≠ h) :
    namesOf (ecological_inference_model nv vp pm lam g) =
      ["alpha", "beta", "pct_minority_voting_" ++ g, "pct_majority_voting_" ++ g,
        "est_voting_" ++ g, "votes_for_" ++ g] ∧
    "alpha" ∈ namesOf (ecological_inference_model nv vp pm lam h) ∧
    "beta" ∈ namesOf (ecological_inference_model nv vp pm lam h) ∧
    "pct_minority_voting_" ++ g ≠ "pct_minority_voting_" ++ h ∧
    "pct_majority_voting_" ++ g ≠ "pct_majority_voting_" ++ h ∧
    "est_voting_" ++ g ≠ "est_voting_" ++ h ∧
    "votes_for_" ++ g ≠ "votes_for_" ++ h := by
  refine ⟨?_, ?_, ?_,
    fun he => hg (string_append_right_inj he),
    fun he => hg (string_append_right_inj he),
    fun he => hg (string_append_right_inj he),
    fun he => hg (string_append_right_inj he)⟩
  · unfold namesOf ecological_inference_model
    simp [h1, h2, Model.varNames]
  · unfold namesOf ecological_inference_model
    simp [h1, h2, Model.varNames]
  · unfold namesOf ecological_inference_model
    simp [h1, h2, Model.varNames]

/-- Witness for the amended C5 at group names "dem" and "rep". -/
theorem group_name_partial_namespacing_witness :
    namesOf (ecological_inference_model [50] [100] [NpFloat.fin (3/10)]
        (NpFloat.fin (1/2)) "dem") =
      ["alpha", "beta", "pct_minority_voting_" ++ "dem", "pct_majority_voting_" ++ "dem",
        "est_voting_" ++ "dem", "votes_for_" ++ "dem"] ∧
    "alpha" ∈ namesOf (ecological_inference_model [50] [100] [NpFloat.fin (3/10)]
      (NpFloat.fin (1/2)) "rep") ∧
    "beta" ∈ namesOf (ecological_inference_model [50] [100] [NpFloat.fin (3/10)]
      (NpFloat.fin (1/2)) "rep") ∧
    "pct_minority_voting_" ++ "dem" ≠ "pct_minority_voting_" ++ "rep" ∧
    "pct_majority_voting_" ++ "dem" ≠ "pct_majority_voting_" ++ "rep" ∧
    "est_voting_" ++ "dem" ≠ "est_voting_" ++ "rep" ∧
    "votes_for_" ++ "dem" ≠ "votes_for_" ++ "rep" :=
  group_name_partial_namespacing [50] [100] [NpFloat.fin (3/10)] (NpFloat.fin (1/2))
    "dem" "rep" rfl rfl (by decide)
